import Mathlib

/-!
Verification of the flappy game core from src/flappy/src/main.rs.

Shallow embedding conventions:
* Rust `i32` fields become `Int` (no claim touches 32-bit overflow).
* Rust `f32` fields (`velocity`, `frame_time`) become `ℚ`, with exact
  arithmetic; the cast `velocity as i32` is truncation toward zero.
* `RandomNumberGenerator::new().range(10, 40)` inside `Obstacle::new` is an
  injected draw: `Obstacle.new` takes the drawn `gapY` as an extra argument,
  and the per-tick context carries the draw the tick would use.
* The `BTerm` context is reduced to its state-relevant parts: the elapsed
  frame time, the optional pressed key, the injected random draw, and the
  `quitting` flag (returned as the `Bool` component of a tick). Rendering
  calls do not touch game state and are dropped.
-/

namespace Flappy

def SCREEN_WIDTH : Int := 80

def SCREEN_HEIGHT : Int := 50

def FRAME_DURATION : ℚ := 60

/-- GameMode enum: Menu, Playing, End. -/
inductive GameMode : Type
  | Menu : GameMode
  | Playing : GameMode
  | End : GameMode
deriving DecidableEq, Repr

/-- Player struct: x, y coordinates and vertical velocity. -/
structure Player : Type where
  x : Int
  y : Int
  velocity : ℚ
deriving DecidableEq, Repr

/-- Player::new — velocity starts at 0.0. -/
def Player.new (x y : Int) : Player :=
  { x := x, y := y, velocity := 0 }

/-- Rust `f32 as i32`: truncation toward zero (on an exact rational value). -/
def ratTrunc (q : ℚ) : Int := if 0 ≤ q then ⌊q⌋ else -⌊-q⌋

/-- Player::gravity_and_move — gravity capped below 2.0, y moved by the
truncated velocity, x incremented, y clamped at 0 from below. The f32
velocity arithmetic is idealized here as exact rationals; the true binary32
behavior of the velocity update is modelled separately by gravity32vel
below, and the two disagree (see the claim C1 theorem). -/
def Player.gravity_and_move (p : Player) : Player :=
  let v : ℚ := if p.velocity < 2 then p.velocity + 1/5 else p.velocity
  let y0 : Int := p.y + ratTrunc v
  let x : Int := p.x + 1
  let y : Int := if y0 < 0 then 0 else y0
  { x := x, y := y, velocity := v }

/-- Player::flap — sets velocity to -2.0 unconditionally. -/
def Player.flap (p : Player) : Player :=
  { p with velocity := -2 }

/-- Obstacle struct: x position, gap center, gap size. -/
structure Obstacle : Type where
  x : Int
  gap_y : Int
  size : Int
deriving DecidableEq, Repr

/-- Obstacle::new — gap_y is the injected random draw (source:
`random.range(10, 40)`), size is `max(2, 20 - score)`. -/
def Obstacle.new (x score gapY : Int) : Obstacle :=
  { x := x, gap_y := gapY, size := max 2 (20 - score) }

/-- Obstacle::hit_obstacle — true iff x matches and y is strictly outside
the gap band; `size / 2` is Rust i32 division (truncation toward zero). -/
def Obstacle.hit_obstacle (o : Obstacle) (p : Player) : Bool :=
  let half_size : Int := o.size.tdiv 2
  let does_x_match : Bool := p.x == o.x
  let player_above_gap : Bool := decide (p.y < o.gap_y - half_size)
  let player_below_gap : Bool := decide (p.y > o.gap_y + half_size)
  does_x_match && (player_above_gap || player_below_gap)

/-- State struct: player, frame-time accumulator, obstacle, mode, score. -/
structure State : Type where
  player : Player
  frame_time : ℚ
  obstacle : Obstacle
  mode : GameMode
  score : Int
deriving DecidableEq, Repr

/-- The state-relevant part of the per-frame BTerm context. -/
inductive Key : Type
  | P : Key
  | Q : Key
  | Space : Key
  | Other : Key
deriving DecidableEq, Repr

structure Ctx : Type where
  frame_time_ms : ℚ
  key : Option Key
  gapY : Int
deriving DecidableEq, Repr

/-- State::new — player at (5, 25), obstacle at SCREEN_WIDTH with score 0,
mode Menu, score 0. -/
def State.new (gapY : Int) : State :=
  { player := Player.new 5 25
    frame_time := 0
    obstacle := Obstacle.new SCREEN_WIDTH 0 gapY
    mode := GameMode.Menu
    score := 0 }

/-- State::restart — every field of the state is overwritten. -/
def State.restart (_s : State) (gapY : Int) : State :=
  { player := Player.new 5 25
    frame_time := 0
    obstacle := Obstacle.new SCREEN_WIDTH 0 gapY
    mode := GameMode.Playing
    score := 0 }

/-- State::main_menu — P restarts, Q sets the quitting flag. -/
def State.main_menu (s : State) (ctx : Ctx) : State × Bool :=
  match ctx.key with
  | some Key.P => (s.restart ctx.gapY, false)
  | some Key.Q => (s, true)
  | _ => (s, false)

/-- State::play — one Playing tick, straight-line like the source:
accumulate frame time; if over FRAME_DURATION reset it and advance the
player; flap on Space; score and replace the obstacle once the player has
passed it; switch to End on fall-out or collision. -/
def State.play (s : State) (ctx : Ctx) : State × Bool :=
  let ft : ℚ := s.frame_time + ctx.frame_time_ms
  let ft2 : ℚ := if ft > FRAME_DURATION then 0 else ft
  let p1 : Player := if ft > FRAME_DURATION then s.player.gravity_and_move else s.player
  let p2 : Player := if ctx.key = some Key.Space then p1.flap else p1
  let sc : Int := if p2.x > s.obstacle.x then s.score + 1 else s.score
  let ob : Obstacle :=
    if p2.x > s.obstacle.x then Obstacle.new (p2.x + SCREEN_WIDTH) (s.score + 1) ctx.gapY
    else s.obstacle
  let md : GameMode :=
    if p2.y > SCREEN_HEIGHT ∨ ob.hit_obstacle p2 = true then GameMode.End
    else s.mode
  ({ player := p2, frame_time := ft2, obstacle := ob, mode := md, score := sc },
   false)

/-- State::dead — P restarts, Q sets the quitting flag. -/
def State.dead (s : State) (ctx : Ctx) : State × Bool :=
  match ctx.key with
  | some Key.P => (s.restart ctx.gapY, false)
  | some Key.Q => (s, true)
  | _ => (s, false)

/-- GameState::tick — dispatch on the current mode. -/
def State.tick (s : State) (ctx : Ctx) : State × Bool :=
  match s.mode with
  | GameMode.Menu => s.main_menu ctx
  | GameMode.Playing => s.play ctx
  | GameMode.End => s.dead ctx

/-- Round a rational to the nearest integer, ties to even. -/
def rne (x : ℚ) : Int :=
  let n : Int := ⌊x⌋
  if x - n < 1 / 2 then n
  else if 1 / 2 < x - n then n + 1
  else if n % 2 = 0 then n else n + 1

/-- Round an exact rational to the nearest IEEE-754 binary32 value (24-bit
significand, round to nearest, ties to even). Subnormals and overflow are
not modelled; every value this file applies it to is in the normal range. -/
def f32round (q : ℚ) : ℚ :=
  if q = 0 then 0
  else if 0 < q then
    (2 : ℚ) ^ (Int.log 2 q - 23) * rne (q / (2 : ℚ) ^ (Int.log 2 q - 23))
  else
    -((2 : ℚ) ^ (Int.log 2 (-q) - 23) *
      rne (-q / (2 : ℚ) ^ (Int.log 2 (-q) - 23)))

/-- The f32 literal 0.2 from the source, as the exact binary32 value
13421773 * 2 ^ (-26). -/
def g32 : ℚ := 13421773 / 67108864

/-- The velocity component of gravity_and_move under exact binary32
semantics: the guard compares exactly, and `velocity += 0.2` adds the
binary32 constant g32 and rounds the sum back to binary32. -/
def gravity32vel (v : ℚ) : ℚ := if v < 2 then f32round (v + g32) else v

/-- The binary32 velocity after n gravity_and_move steps from the fresh
player velocity 0.0 with no flap. -/
def vel32 : Nat → ℚ
  | 0 => 0
  | n + 1 => gravity32vel (vel32 n)

/-- The game states reachable from the initial state by ticks (restarts are
the P-key branches of the Menu and End ticks). -/
inductive Reachable : State → Prop
  | init (gapY : Int) : Reachable (State.new gapY)
  | step (s : State) (ctx : Ctx) : Reachable s → Reachable (State.tick s ctx).1

/-- Tick context for the no-flap scenario: every tick delivers 61 ms, so the
61 > 60 = FRAME_DURATION gate fires a physics step on every tick; the random
draw is pinned at 25. -/
def demoCtx : Ctx := { frame_time_ms := 61, key := none, gapY := 25 }

/-- The no-flap scenario run: a fresh Playing state driven by demoCtx ticks. -/
def demoRun : Nat → State
  | 0 => (State.new 25).restart 25
  | n + 1 => (State.tick (demoRun n) demoCtx).1

/-- Integer shadow of a demoCtx-driven state: k stands for 5 * velocity
(every reachable velocity is a multiple of 1/5) and the frame-time
accumulator is pinned at 0 (every demoCtx tick resets it). -/
structure SimState : Type where
  x : Int
  y : Int
  k : Int
  obx : Int
  gap : Int
  size : Int
  mode : GameMode
  score : Int
deriving DecidableEq, Repr

/-- Interpretation of the integer shadow as a real game state. -/
def SimState.abs (t : SimState) : State :=
  { player := { x := t.x, y := t.y, velocity := (t.k : ℚ) / 5 }
    frame_time := 0
    obstacle := { x := t.obx, gap_y := t.gap, size := t.size }
    mode := t.mode
    score := t.score }

/-- Integer shadow of one demoCtx tick. -/
def simTick (t : SimState) : SimState :=
  match t.mode with
  | GameMode.Playing =>
    let k2 : Int := if t.k < 10 then t.k + 1 else t.k
    let y0 : Int := t.y + k2.tdiv 5
    let y2 : Int := if y0 < 0 then 0 else y0
    let x2 : Int := t.x + 1
    let sc : Int := if x2 > t.obx then t.score + 1 else t.score
    let obx2 : Int := if x2 > t.obx then x2 + SCREEN_WIDTH else t.obx
    let gap2 : Int := if x2 > t.obx then 25 else t.gap
    let size2 : Int := if x2 > t.obx then max 2 (20 - (t.score + 1)) else t.size
    let hit : Bool := (x2 == obx2) &&
      (decide (y2 < gap2 - size2.tdiv 2) || decide (y2 > gap2 + size2.tdiv 2))
    let md : GameMode :=
      if y2 > SCREEN_HEIGHT ∨ hit = true then GameMode.End else t.mode
    { x := x2, y := y2, k := k2, obx := obx2, gap := gap2, size := size2,
      mode := md, score := sc }
  | _ => t

/-- The integer shadow of demoRun. -/
def simRun : Nat → SimState
  | 0 => { x := 5, y := 25, k := 0, obx := 80, gap := 25, size := 20,
           mode := GameMode.Playing, score := 0 }
  | n + 1 => simTick (simRun n)

/-! General lemmas shared by the claim theorems. -/

/-- Truncation toward zero of a fifth of an integer is integer t-division. -/
lemma ratTrunc_intCast_div_five (k : Int) :
    ratTrunc ((k : ℚ) / 5) = k.tdiv 5 := by
  unfold ratTrunc
  have h5 : ((5 : ℕ) : ℚ) = 5 := by norm_num
  rcases le_or_lt 0 k with hk | hk
  · rw [if_pos (div_nonneg (by exact_mod_cast hk) (by norm_num))]
    rw [← h5, Rat.floor_intCast_div_natCast]
    rw [Int.tdiv_eq_ediv hk (by norm_num)]
    norm_num
  · have hneg : ¬ 0 ≤ (k : ℚ) / 5 := by
      push_neg
      apply div_neg_of_neg_of_pos
      · exact_mod_cast hk
      · norm_num
    rw [if_neg hneg]
    have hrw : -((k : ℚ) / 5) = ((-k : Int) : ℚ) / 5 := by
      push_cast
      ring
    rw [hrw, ← h5, Rat.floor_intCast_div_natCast]
    have hk2 : (0 : Int) ≤ -k := by omega
    have hneg2 : k.tdiv 5 = -((-k).tdiv 5) := by
      rw [Int.neg_tdiv, neg_neg]
    rw [hneg2, Int.tdiv_eq_ediv hk2 (by norm_num)]
    norm_num

/-- One gravity increment on a fifth-integer velocity, in shadow form. -/
lemma velocity_sim (k : Int) :
    (if (k : ℚ) / 5 < 2 then (k : ℚ) / 5 + 1 / 5 else (k : ℚ) / 5)
      = (((if k < 10 then k + 1 else k) : Int) : ℚ) / 5 := by
  have hiff : (k : ℚ) / 5 < 2 ↔ k < 10 := by
    rw [div_lt_iff₀ (by norm_num : (0 : ℚ) < 5)]
    constructor
    · intro hlt
      exact_mod_cast hlt
    · intro hlt
      have h10 : (k : ℚ) < 10 := by exact_mod_cast hlt
      linarith
  by_cases hk : k < 10
  · rw [if_pos (hiff.mpr hk), if_pos hk]
    push_cast
    ring
  · rw [if_neg (fun hc => hk (hiff.mp hc)), if_neg hk]

/-- gravity_and_move on a fifth-integer velocity, in shadow form. -/
lemma gravity_abs (x y k : Int) :
    Player.gravity_and_move { x := x, y := y, velocity := (k : ℚ) / 5 } =
      { x := x + 1,
        y := if y + (if k < 10 then k + 1 else k).tdiv 5 < 0 then 0
             else y + (if k < 10 then k + 1 else k).tdiv 5,
        velocity := (((if k < 10 then k + 1 else k) : Int) : ℚ) / 5 } := by
  simp only [Player.gravity_and_move, velocity_sim k, ratTrunc_intCast_div_five]

/-- One demoCtx tick on shadow states agrees with the integer shadow tick. -/
lemma tick_abs (t : SimState) :
    (State.tick t.abs demoCtx).1 = (simTick t).abs := by
  cases hm : t.mode
  case Menu =>
    simp [State.tick, SimState.abs, hm, State.main_menu, demoCtx, simTick]
  case End =>
    simp [State.tick, SimState.abs, hm, State.dead, demoCtx, simTick]
  case Playing =>
    have hgate : (60 : ℚ) < 61 := by norm_num
    have hkey : ¬ ((none : Option Key) = some Key.Space) := by simp
    simp only [State.tick, SimState.abs, hm, State.play, simTick, demoCtx,
      FRAME_DURATION, zero_add, hgate, if_true, if_neg hkey, gravity_abs,
      Obstacle.new, Obstacle.hit_obstacle]
    split_ifs <;> rfl

/-- The no-flap run is the interpretation of its integer shadow. -/
lemma demoRun_eq_simRun (n : Nat) : demoRun n = (simRun n).abs := by
  induction n with
  | zero =>
      show (State.new 25).restart 25 = _
      simp [State.restart, simRun, SimState.abs, Player.new, Obstacle.new,
        SCREEN_WIDTH]
  | succ n ih =>
      show (State.tick (demoRun n) demoCtx).1 = _
      rw [ih, tick_abs]
      rfl

/-- A Playing tick always leaves the player at or behind the obstacle: the
replacement obstacle sits a whole screen ahead of the player. -/
lemma play_player_le_obstacle (s : State) (ctx : Ctx) :
    (s.play ctx).1.player.x ≤ (s.play ctx).1.obstacle.x := by
  simp only [State.play]
  split_ifs <;> simp_all [Obstacle.new, SCREEN_WIDTH]

/-- Menu and End ticks either keep the state or restart it. -/
lemma menu_dead_cases (s : State) (ctx : Ctx) :
    ((s.main_menu ctx).1 = s ∨ (s.main_menu ctx).1 = s.restart ctx.gapY) ∧
    ((s.dead ctx).1 = s ∨ (s.dead ctx).1 = s.restart ctx.gapY) := by
  constructor <;>
    · rcases hk : ctx.key with _ | k
      · simp [State.main_menu, State.dead, hk]
      · cases k <;> simp [State.main_menu, State.dead, hk]

/-- The player never passes the active obstacle in a reachable state. -/
lemma reachable_inv (s : State) (h : Reachable s) :
    s.player.x ≤ s.obstacle.x := by
  induction h with
  | init gapY =>
      simp [State.new, Player.new, Obstacle.new, SCREEN_WIDTH]
  | step t ctx ht ih =>
      cases hm : t.mode
      · have hc := (menu_dead_cases t ctx).1
        simp only [State.tick, hm]
        rcases hc with hc | hc <;> rw [hc]
        · exact ih
        · simp [State.restart, Player.new, Obstacle.new, SCREEN_WIDTH]
      · simp only [State.tick, hm]
        exact play_player_le_obstacle t ctx
      · have hc := (menu_dead_cases t ctx).2
        simp only [State.tick, hm]
        rcases hc with hc | hc <;> rw [hc]
        · exact ih
        · simp [State.restart, Player.new, Obstacle.new, SCREEN_WIDTH]

/-- Int.log base 2 from explicit power bounds. -/
lemma log2_eq {q : ℚ} {e : Int} (hq : 0 < q) (h1 : (2 : ℚ) ^ e ≤ q)
    (h2 : q < (2 : ℚ) ^ (e + 1)) : Int.log 2 q = e := by
  have hc : ((2 : ℕ) : ℚ) = (2 : ℚ) := by norm_num
  have ha : e ≤ Int.log 2 q := by
    rw [← Int.zpow_le_iff_le_log (by norm_num) hq, hc]
    exact h1
  have hb : Int.log 2 q < e + 1 := by
    rw [← Int.lt_zpow_iff_log_lt (by norm_num) hq, hc]
    exact h2
  omega

/-- Nearest-even rounding, case below the half point. -/
lemma rne_eq_down (x : ℚ) (n : Int) (h1 : (n : ℚ) ≤ x) (h2 : x < n + 1)
    (h3 : x - n < 1 / 2) : rne x = n := by
  have hf : ⌊x⌋ = n := Int.floor_eq_iff.mpr ⟨h1, h2⟩
  unfold rne
  rw [hf, if_pos h3]

/-- Nearest-even rounding, case above the half point. -/
lemma rne_eq_up (x : ℚ) (n : Int) (h1 : (n : ℚ) ≤ x) (h2 : x < n + 1)
    (h3 : 1 / 2 < x - n) : rne x = n + 1 := by
  have hf : ⌊x⌋ = n := Int.floor_eq_iff.mpr ⟨h1, h2⟩
  unfold rne
  rw [hf, if_neg (by linarith), if_pos h3]

/-- Evaluation scheme for f32round on a positive rational. -/
lemma f32round_pos_eval (q r : ℚ) (e m : Int) (hq : 0 < q)
    (hlog : Int.log 2 q = e)
    (hrne : rne (q / (2 : ℚ) ^ (e - 23)) = m)
    (hr : (2 : ℚ) ^ (e - 23) * (m : ℚ) = r) :
    f32round q = r := by
  unfold f32round
  rw [if_neg (ne_of_gt hq), if_pos hq, hlog, hrne, hr]

/-! The claim theorems. -/

/-- Claim C1: refuted on the binary32 arithmetic of the source. With the
f32 constant 0.2 = 13421773/67108864 and round-to-nearest-even addition,
the velocity of a fresh player reaches 8388609/4194304 = 2.000000238...
at the 10th gravity_and_move and sticks there, strictly above 2; and the
increment from the 4th to the 5th step is not 0.2. So the velocity neither
rises by exactly 0.2 per step, nor holds at exactly 2.0, nor stays at most
+2.0, contradicting the spec invariant the claim states. -/
theorem velocity32_overshoot :
    vel32 10 = 8388609 / 4194304 ∧
    2 < vel32 10 ∧
    (∀ n : Nat, 10 ≤ n → vel32 n = 8388609 / 4194304) ∧
    vel32 5 - vel32 4 ≠ 1 / 5 := by
  have s1 : gravity32vel (0) = 13421773 / 67108864 := by
      unfold gravity32vel
      rw [if_pos (by norm_num : (0 : ℚ) < 2)]
      have hsum : (0 : ℚ) + g32 = 13421773 / 67108864 := by
        unfold g32
        norm_num
      rw [hsum]
      exact f32round_pos_eval (13421773 / 67108864) (13421773 / 67108864) (-3) 13421773 (by norm_num)
        (log2_eq (by norm_num) (by norm_num) (by norm_num))
        (by rw [rne_eq_down (13421773 / 67108864 / (2 : ℚ) ^ ((-3 : Int) - 23)) 13421773 (by norm_num) (by norm_num) (by norm_num)])
        (by norm_num)
  have s2 : gravity32vel (13421773 / 67108864) = 13421773 / 33554432 := by
      unfold gravity32vel
      rw [if_pos (by norm_num : (13421773 / 67108864 : ℚ) < 2)]
      have hsum : (13421773 / 67108864 : ℚ) + g32 = 13421773 / 33554432 := by
        unfold g32
        norm_num
      rw [hsum]
      exact f32round_pos_eval (13421773 / 33554432) (13421773 / 33554432) (-2) 13421773 (by norm_num)
        (log2_eq (by norm_num) (by norm_num) (by norm_num))
        (by rw [rne_eq_down (13421773 / 33554432 / (2 : ℚ) ^ ((-2 : Int) - 23)) 13421773 (by norm_num) (by norm_num) (by norm_num)])
        (by norm_num)
  have s3 : gravity32vel (13421773 / 33554432) = 5033165 / 8388608 := by
      unfold gravity32vel
      rw [if_pos (by norm_num : (13421773 / 33554432 : ℚ) < 2)]
      have hsum : (13421773 / 33554432 : ℚ) + g32 = 40265319 / 67108864 := by
        unfold g32
        norm_num
      rw [hsum]
      exact f32round_pos_eval (40265319 / 67108864) (5033165 / 8388608) (-1) 10066330 (by norm_num)
        (log2_eq (by norm_num) (by norm_num) (by norm_num))
        (by rw [rne_eq_up (40265319 / 67108864 / (2 : ℚ) ^ ((-1 : Int) - 23)) 10066329 (by norm_num) (by norm_num) (by norm_num)]; norm_num)
        (by norm_num)
  have s4 : gravity32vel (5033165 / 8388608) = 13421773 / 16777216 := by
      unfold gravity32vel
      rw [if_pos (by norm_num : (5033165 / 8388608 : ℚ) < 2)]
      have hsum : (5033165 / 8388608 : ℚ) + g32 = 53687093 / 67108864 := by
        unfold g32
        norm_num
      rw [hsum]
      exact f32round_pos_eval (53687093 / 67108864) (13421773 / 16777216) (-1) 13421773 (by norm_num)
        (log2_eq (by norm_num) (by norm_num) (by norm_num))
        (by rw [rne_eq_down (53687093 / 67108864 / (2 : ℚ) ^ ((-1 : Int) - 23)) 13421773 (by norm_num) (by norm_num) (by norm_num)])
        (by norm_num)
  have s5 : gravity32vel (13421773 / 16777216) = 1 := by
      unfold gravity32vel
      rw [if_pos (by norm_num : (13421773 / 16777216 : ℚ) < 2)]
      have hsum : (13421773 / 16777216 : ℚ) + g32 = 67108865 / 67108864 := by
        unfold g32
        norm_num
      rw [hsum]
      exact f32round_pos_eval (67108865 / 67108864) (1) (0) 8388608 (by norm_num)
        (log2_eq (by norm_num) (by norm_num) (by norm_num))
        (by rw [rne_eq_down (67108865 / 67108864 / (2 : ℚ) ^ ((0 : Int) - 23)) 8388608 (by norm_num) (by norm_num) (by norm_num)])
        (by norm_num)
  have s6 : gravity32vel (1) = 5033165 / 4194304 := by
      unfold gravity32vel
      rw [if_pos (by norm_num : (1 : ℚ) < 2)]
      have hsum : (1 : ℚ) + g32 = 80530637 / 67108864 := by
        unfold g32
        norm_num
      rw [hsum]
      exact f32round_pos_eval (80530637 / 67108864) (5033165 / 4194304) (0) 10066330 (by norm_num)
        (log2_eq (by norm_num) (by norm_num) (by norm_num))
        (by rw [rne_eq_up (80530637 / 67108864 / (2 : ℚ) ^ ((0 : Int) - 23)) 10066329 (by norm_num) (by norm_num) (by norm_num)]; norm_num)
        (by norm_num)
  have s7 : gravity32vel (5033165 / 4194304) = 2936013 / 2097152 := by
      unfold gravity32vel
      rw [if_pos (by norm_num : (5033165 / 4194304 : ℚ) < 2)]
      have hsum : (5033165 / 4194304 : ℚ) + g32 = 93952413 / 67108864 := by
        unfold g32
        norm_num
      rw [hsum]
      exact f32round_pos_eval (93952413 / 67108864) (2936013 / 2097152) (0) 11744052 (by norm_num)
        (log2_eq (by norm_num) (by norm_num) (by norm_num))
        (by rw [rne_eq_up (93952413 / 67108864 / (2 : ℚ) ^ ((0 : Int) - 23)) 11744051 (by norm_num) (by norm_num) (by norm_num)]; norm_num)
        (by norm_num)
  have s8 : gravity32vel (2936013 / 2097152) = 6710887 / 4194304 := by
      unfold gravity32vel
      rw [if_pos (by norm_num : (2936013 / 2097152 : ℚ) < 2)]
      have hsum : (2936013 / 2097152 : ℚ) + g32 = 107374189 / 67108864 := by
        unfold g32
        norm_num
      rw [hsum]
      exact f32round_pos_eval (107374189 / 67108864) (6710887 / 4194304) (0) 13421774 (by norm_num)
        (log2_eq (by norm_num) (by norm_num) (by norm_num))
        (by rw [rne_eq_up (107374189 / 67108864 / (2 : ℚ) ^ ((0 : Int) - 23)) 13421773 (by norm_num) (by norm_num) (by norm_num)]; norm_num)
        (by norm_num)
  have s9 : gravity32vel (6710887 / 4194304) = 1887437 / 1048576 := by
      unfold gravity32vel
      rw [if_pos (by norm_num : (6710887 / 4194304 : ℚ) < 2)]
      have hsum : (6710887 / 4194304 : ℚ) + g32 = 120795965 / 67108864 := by
        unfold g32
        norm_num
      rw [hsum]
      exact f32round_pos_eval (120795965 / 67108864) (1887437 / 1048576) (0) 15099496 (by norm_num)
        (log2_eq (by norm_num) (by norm_num) (by norm_num))
        (by rw [rne_eq_up (120795965 / 67108864 / (2 : ℚ) ^ ((0 : Int) - 23)) 15099495 (by norm_num) (by norm_num) (by norm_num)]; norm_num)
        (by norm_num)
  have s10 : gravity32vel (1887437 / 1048576) = 8388609 / 4194304 := by
      unfold gravity32vel
      rw [if_pos (by norm_num : (1887437 / 1048576 : ℚ) < 2)]
      have hsum : (1887437 / 1048576 : ℚ) + g32 = 134217741 / 67108864 := by
        unfold g32
        norm_num
      rw [hsum]
      exact f32round_pos_eval (134217741 / 67108864) (8388609 / 4194304) (1) 8388609 (by norm_num)
        (log2_eq (by norm_num) (by norm_num) (by norm_num))
        (by rw [rne_eq_up (134217741 / 67108864 / (2 : ℚ) ^ ((1 : Int) - 23)) 8388608 (by norm_num) (by norm_num) (by norm_num)]; norm_num)
        (by norm_num)
  have t0 : vel32 0 = 0 := rfl
  have t1 : vel32 1 = 13421773 / 67108864 := by
      show gravity32vel (vel32 0) = _
      rw [t0, s1]
  have t2 : vel32 2 = 13421773 / 33554432 := by
      show gravity32vel (vel32 1) = _
      rw [t1, s2]
  have t3 : vel32 3 = 5033165 / 8388608 := by
      show gravity32vel (vel32 2) = _
      rw [t2, s3]
  have t4 : vel32 4 = 13421773 / 16777216 := by
      show gravity32vel (vel32 3) = _
      rw [t3, s4]
  have t5 : vel32 5 = 1 := by
      show gravity32vel (vel32 4) = _
      rw [t4, s5]
  have t6 : vel32 6 = 5033165 / 4194304 := by
      show gravity32vel (vel32 5) = _
      rw [t5, s6]
  have t7 : vel32 7 = 2936013 / 2097152 := by
      show gravity32vel (vel32 6) = _
      rw [t6, s7]
  have t8 : vel32 8 = 6710887 / 4194304 := by
      show gravity32vel (vel32 7) = _
      rw [t7, s8]
  have t9 : vel32 9 = 1887437 / 1048576 := by
      show gravity32vel (vel32 8) = _
      rw [t8, s9]
  have t10 : vel32 10 = 8388609 / 4194304 := by
      show gravity32vel (vel32 9) = _
      rw [t9, s10]
  have hfix : gravity32vel (8388609 / 4194304) = 8388609 / 4194304 := by
    unfold gravity32vel
    rw [if_neg (by norm_num)]
  refine ⟨t10, by rw [t10]; norm_num, ?_, by rw [t5, t4]; norm_num⟩
  intro n hn
  induction n with
  | zero => omega
  | succ n ih =>
      rcases Nat.lt_or_ge n 10 with hlt | hge
      · have hn10 : n + 1 = 10 := by omega
        rw [hn10, t10]
      · have hv := ih hge
        show gravity32vel (vel32 n) = _
        rw [hv, hfix]

/-- Claim C2: hit_obstacle is true iff the x coordinates match and y lies
strictly outside the gap band around gap_y of half-width size / 2 (Rust i32
division); hence it is false whenever the x coordinates differ. -/
theorem hit_obstacle_iff (p : Player) (o : Obstacle) :
    o.hit_obstacle p = true ↔
      p.x = o.x ∧
        (p.y < o.gap_y - o.size.tdiv 2 ∨ o.gap_y + o.size.tdiv 2 < p.y) := by
  simp [Obstacle.hit_obstacle]

/-- Claim C3: an obstacle built for score s has gap size max 2 (20 - s),
never below 2 and non-increasing in the score. -/
theorem obstacle_gap_size (x gapY s t : Int) (_hs : 0 ≤ s) (hst : s ≤ t) :
    (Obstacle.new x s gapY).size = max 2 (20 - s) ∧
    2 ≤ (Obstacle.new x s gapY).size ∧
    (Obstacle.new x t gapY).size ≤ (Obstacle.new x s gapY).size := by
  refine ⟨rfl, le_max_left _ _, ?_⟩
  simp only [Obstacle.new]
  exact max_le_max le_rfl (by omega)

theorem obstacle_gap_size_witness :
    (0 : Int) ≤ 0 ∧ (0 : Int) ≤ 7 ∧
    (Obstacle.new 80 0 25).size = max 2 (20 - 0) ∧
    2 ≤ (Obstacle.new 80 0 25).size ∧
    (Obstacle.new 80 7 25).size ≤ (Obstacle.new 80 0 25).size :=
  ⟨le_refl 0, by decide,
   (obstacle_gap_size 80 25 0 7 (by decide) (by decide)).1,
   (obstacle_gap_size 80 25 0 7 (by decide) (by decide)).2.1,
   (obstacle_gap_size 80 25 0 7 (by decide) (by decide)).2.2⟩

/-- Claim C4: a Playing tick ends in End exactly when, after the updates of
that tick, the player has fallen below the screen or collides with the
active obstacle; the tick never raises the quitting signal and never leaves
the Playing/End pair of modes. -/
theorem play_mode_transition (s : State) (ctx : Ctx)
    (h : s.mode = GameMode.Playing) :
    ((s.play ctx).1.mode = GameMode.End ↔
      (SCREEN_HEIGHT < (s.play ctx).1.player.y ∨
        (s.play ctx).1.obstacle.hit_obstacle (s.play ctx).1.player = true)) ∧
    (s.play ctx).2 = false ∧
    ((s.play ctx).1.mode = GameMode.Playing ∨
      (s.play ctx).1.mode = GameMode.End) := by
  simp only [State.play]
  split_ifs with hcond <;> simp_all

theorem play_mode_transition_witness :
    ((State.new 25).restart 25).mode = GameMode.Playing ∧
    ((((State.new 25).restart 25).play demoCtx).1.mode = GameMode.End ↔
      (SCREEN_HEIGHT < (((State.new 25).restart 25).play demoCtx).1.player.y ∨
        (((State.new 25).restart 25).play demoCtx).1.obstacle.hit_obstacle
          (((State.new 25).restart 25).play demoCtx).1.player = true)) :=
  ⟨rfl, (play_mode_transition ((State.new 25).restart 25) demoCtx rfl).1⟩

/-- Claim C5: during a Playing tick the score is bumped by one and the
obstacle replaced by a fresh one at the updated player x plus the screen
width, built with the bumped score, exactly when the updated player x has
passed the obstacle; otherwise both are untouched. -/
theorem play_score_and_obstacle (s : State) (ctx : Ctx) :
    (s.play ctx).1.score =
      (if s.obstacle.x < (s.play ctx).1.player.x then s.score + 1
        else s.score) ∧
    (s.play ctx).1.obstacle =
      (if s.obstacle.x < (s.play ctx).1.player.x then
        Obstacle.new ((s.play ctx).1.player.x + SCREEN_WIDTH) (s.score + 1)
          ctx.gapY
      else s.obstacle) := by
  simp only [State.play]
  exact ⟨trivial, trivial⟩

/-- Claim C6: restart from any state rebuilds every field: player at (5, 25)
with velocity 0, frame time 0, obstacle at SCREEN_WIDTH with the fresh draw
and gap size 20 (score 0 is passed to the constructor), mode Playing,
score 0. -/
theorem restart_resets (s : State) (gapY : Int) :
    s.restart gapY =
      { player := { x := 5, y := 25, velocity := 0 }
        frame_time := 0
        obstacle := { x := SCREEN_WIDTH, gap_y := gapY, size := 20 }
        mode := GameMode.Playing
        score := 0 } ∧
    (s.restart gapY).obstacle = Obstacle.new SCREEN_WIDTH 0 gapY := by
  constructor <;> rfl

/-- Claim C7: within a Playing tick the physics step (gravity_and_move) runs
exactly once when the accumulated frame time passes FRAME_DURATION, in which
case the accumulator resets to 0, and not at all otherwise; flap is applied
whenever the Space key is present, on top of whichever of those happened. -/
theorem play_step_gating (s : State) (ctx : Ctx) :
    (s.play ctx).1.player =
      (if ctx.key = some Key.Space then
        (if FRAME_DURATION < s.frame_time + ctx.frame_time_ms then
          s.player.gravity_and_move else s.player).flap
      else
        (if FRAME_DURATION < s.frame_time + ctx.frame_time_ms then
          s.player.gravity_and_move else s.player)) ∧
    (s.play ctx).1.frame_time =
      (if FRAME_DURATION < s.frame_time + ctx.frame_time_ms then 0
        else s.frame_time + ctx.frame_time_ms) := by
  simp only [State.play]
  exact ⟨trivial, trivial⟩

/-- Claim C8: gravity_and_move never leaves y negative, whatever the prior
position and velocity. -/
theorem advance_y_nonneg (p : Player) : 0 ≤ p.gravity_and_move.y := by
  simp only [Player.gravity_and_move]
  split_ifs with h <;> omega

/-- Claim C9: over 100 no-flap ticks from a fresh Playing state, player.y
never decreases, at some step it exceeds the screen height, and the run ends
in the End mode. -/
theorem no_flap_run_falls_out :
    (∀ i : Nat, i < 100 → (demoRun i).player.y ≤ (demoRun (i + 1)).player.y) ∧
    (∃ j : Nat, j ≤ 100 ∧ SCREEN_HEIGHT < (demoRun j).player.y) ∧
    (demoRun 100).mode = GameMode.End := by
  refine ⟨?_, ⟨20, by norm_num, ?_⟩, ?_⟩
  · intro i hi
    rw [demoRun_eq_simRun, demoRun_eq_simRun]
    show (simRun i).y ≤ (simRun (i + 1)).y
    revert hi
    revert i
    decide
  · rw [demoRun_eq_simRun]
    show SCREEN_HEIGHT < (simRun 20).y
    decide
  · rw [demoRun_eq_simRun]
    show (simRun 100).mode = GameMode.End
    decide

/-- Claim C10: in every reachable state the player is at or behind the
active obstacle, and a Playing tick moves the player x by at most one, so
the score can step at most once per obstacle and the exact x-alignment
frame is never skipped. -/
theorem reachable_player_behind_obstacle (s : State) (h : Reachable s) :
    s.player.x ≤ s.obstacle.x ∧
    ∀ ctx : Ctx, (s.play ctx).1.player.x = s.player.x ∨
      (s.play ctx).1.player.x = s.player.x + 1 := by
  refine ⟨reachable_inv s h, ?_⟩
  intro ctx
  simp only [State.play]
  split_ifs <;> simp [Player.flap, Player.gravity_and_move]

theorem reachable_player_behind_obstacle_witness :
    Reachable (State.new 25) ∧
    (State.new 25).player.x ≤ (State.new 25).obstacle.x :=
  ⟨Reachable.init 25,
   (reachable_player_behind_obstacle (State.new 25) (Reachable.init 25)).1⟩

end Flappy
